import Mathlib

/-!
Verification of the dws-trade-store trade mutation and expiry logic.

The service layer (`app/services/trade_service.py`, `app/services/expiry_scheduler.py`)
is embedded directly from source.  The repository layer (`PostgresRepository` storage
methods and `MongoDBRepository` log methods) exists in the repository only as
connection plumbing, callers and tests; its storage semantics are modelled from the
spec (§4.2 TradeStore, §4.3 AuditLog) where marked below.

Dates are modelled as integers (day ordinals); `date.today()` becomes an explicit
`today : Int` parameter fixed for the duration of one operation.  Exceptions become
an explicit `PyExc` sum threaded through `Except`; external-repository failures are
injected through a `RepoBehavior` record (a `some msg` field makes the corresponding
repository call raise, modelling storage/audit-store unavailability).
-/

/-- Incoming trade event, from `app/models/schemas.py` `TradeCreate`
(the unused `quantity` placeholder field is omitted; `expired` defaults false). -/
structure TradeCreate where
  trade_id : String
  version : Nat
  counter_party_id : String
  book_id : String
  maturity_date : Int
  created_date : Int
  expired : Bool := false
  deriving Repr, DecidableEq

/-- Stored trade record, from `app/models/trade.py` `Trade`
(`last_updated` is store-side metadata, set by the backing store, and not modelled). -/
structure Trade where
  trade_id : String
  version : Nat
  counter_party_id : String
  book_id : String
  maturity_date : Int
  created_date : Int
  expired : Bool
  deriving Repr, DecidableEq

/-- Exceptions raised along an ingest, from `app/exceptions.py` plus a generic
catch-all for repository errors (`except Exception` in the service). -/
inductive PyExc where
  | invalidVersion (trade_id : String) (received_version current_version : Nat)
  | invalidMaturity (trade_id : String) (maturity_date : Int)
  | otherExc (msg : String)
  deriving Repr, DecidableEq

/-- Message of an exception, from the `__init__` format strings in
`app/exceptions.py` (dates rendered via their integer model). -/
def excMessage : PyExc → String
  | .invalidVersion id r c =>
      "Trade " ++ id ++ ": Received version " ++ toString r ++
      " is lower than current version " ++ toString c
  | .invalidMaturity id m =>
      "Trade " ++ id ++ ": Maturity date " ++ toString m ++ " is earlier than today"
  | .otherExc msg => msg

/-- Structured `details` payloads passed to `log_audit` in
`app/services/trade_service.py` (one constructor per call site's dict shape). -/
inductive AuditDetails where
  | lowerVersion (received_version current_version : Nat)
  | maturityPast (maturity_date today : Int)
  | upsertDetails (version : Nat) (counter_party_id book_id : String)
      (maturity_date : Int) (previous_version : Option Nat)
  | errorDetails (error : String)
  | emptyDetails
  deriving Repr, DecidableEq

/-- One audit entry as appended by `MongoDBRepository.log_audit`. -/
structure AuditEntry where
  trade_id : String
  action : String
  details : AuditDetails
  status : String
  deriving Repr, DecidableEq

/-- Payload of a system event passed to `log_event`. -/
inductive EventData where
  | expiredData (count : Nat) (date : Int)
  | errorData (error : String)
  deriving Repr, DecidableEq

/-- One system event as appended by `MongoDBRepository.log_event`. -/
structure EventEntry where
  event_type : String
  data : EventData
  severity : String
  deriving Repr, DecidableEq

/-- Injected failure behaviour of the backing repositories: a `some msg` field makes
the corresponding repository call raise `otherExc msg` (storage unavailable). -/
structure RepoBehavior where
  getFails : Option String
  saveFails : Option String
  auditFails : Option String
  deriving Repr, DecidableEq

/-- All repository calls succeed. -/
def okEnv : RepoBehavior := ⟨none, none, none⟩

/-- Modelled from the spec: `TradeStore.Get(tradeId) → TradeRecord | absent` (§4.2);
`PostgresRepository.get_trade` is absent from the source, only its callers and tests
remain.  The store is the list of table rows; lookup finds the row keyed by id. -/
def get_trade (store : List Trade) (trade_id : String) : Option Trade :=
  store.find? (fun t => t.trade_id == trade_id)

/-- Modelled from the spec: `TradeStore.Upsert(record)` — insert if absent, else full
overwrite keyed on `tradeId` (§4.2); `PostgresRepository.save_trade` is absent from
the source, only its callers and tests remain. -/
def save_trade (store : List Trade) (t : Trade) : List Trade :=
  if store.any (fun r => r.trade_id == t.trade_id) then
    store.map (fun r => if r.trade_id == t.trade_id then t else r)
  else
    store ++ [t]

/-- Whether the sweep's WHERE clause selects a row: not yet expired and matured. -/
def shouldExpire (asOf : Int) (t : Trade) : Bool :=
  !t.expired && decide (t.maturity_date < asOf)

/-- Row transformation of the expiry sweep: flag a selected row as expired. -/
def markRow (asOf : Int) (t : Trade) : Trade :=
  if shouldExpire asOf t then { t with expired := true } else t

/-- Modelled from the spec: `TradeStore.MarkExpired(asOfDate) → count` — for every
non-expired record whose `maturityDate < asOfDate`, set `expired = true`, as one bulk
operation, returning the number of records changed (§4.2);
`PostgresRepository.mark_expired_trades` is absent from the source. -/
def mark_expired_rows (asOf : Int) (store : List Trade) : List Trade × Nat :=
  (store.map (markRow asOf), (store.filter (shouldExpire asOf)).length)

/-- Trade record constructed from the event in
`TradeService.create_or_update_trade` (source lines 87–95): every field is copied
from the incoming `trade_data`, including `expired`. -/
def mkTrade (td : TradeCreate) : Trade :=
  ⟨td.trade_id, td.version, td.counter_party_id, td.book_id,
   td.maturity_date, td.created_date, td.expired⟩

/-- `TradeService.validate_trade` (source lines 32–75).  Returns the raised
exception (if any) together with the audit log after the side-effecting
`log_audit` calls, which in the source happen before each `raise`.  When the
audit store is down (`env.auditFails`), the `log_audit` call itself raises and
the validation exception is never constructed, exactly as in the source. -/
def validate_trade (env : RepoBehavior) (today : Int) (td : TradeCreate)
    (existing : Option Trade) (log : List AuditEntry) :
    Except PyExc Unit × List AuditEntry :=
  let step1 : Except PyExc Unit × List AuditEntry :=
    match existing with
    | some ex =>
      if td.version < ex.version then
        match env.auditFails with
        | some msg => (.error (.otherExc msg), log)
        | none =>
            (.error (.invalidVersion td.trade_id td.version ex.version),
             log ++ [⟨td.trade_id, "VALIDATION_FAILED",
                      .lowerVersion td.version ex.version, "failed"⟩])
      else (.ok (), log)
    | none => (.ok (), log)
  match step1 with
  | (.error e, log1) => (.error e, log1)
  | (.ok _, log1) =>
    if td.maturity_date < today then
      match env.auditFails with
      | some msg => (.error (.otherExc msg), log1)
      | none =>
          (.error (.invalidMaturity td.trade_id td.maturity_date),
           log1 ++ [⟨td.trade_id, "VALIDATION_FAILED",
                     .maturityPast td.maturity_date today, "failed"⟩])
    else (.ok (), log1)

/-- The `except Exception` handler of `create_or_update_trade` (source lines
122–130): append an ERROR audit entry and re-raise.  If the audit store is down
the `log_audit` call inside the handler raises, and that new exception
propagates instead of the original one. -/
def handleOther (env : RepoBehavior) (td : TradeCreate) (e : PyExc)
    (store : List Trade) (log : List AuditEntry) :
    Except PyExc Trade × List Trade × List AuditEntry :=
  match env.auditFails with
  | some msg2 => (.error (.otherExc msg2), store, log)
  | none =>
      (.error e, store,
       log ++ [⟨td.trade_id, "ERROR", .errorDetails (excMessage e), "failed"⟩])

/-- Exception dispatch of the two `except` clauses in `create_or_update_trade`
(source lines 119–130): validation exceptions are re-raised unchanged, anything
else goes through the ERROR-audit handler. -/
def handleExc (env : RepoBehavior) (td : TradeCreate) (e : PyExc)
    (store : List Trade) (log : List AuditEntry) :
    Except PyExc Trade × List Trade × List AuditEntry :=
  match e with
  | .invalidVersion .. => (.error e, store, log)
  | .invalidMaturity .. => (.error e, store, log)
  | .otherExc _ => handleOther env td e store log

/-- `TradeService.create_or_update_trade` (source lines 77–130): get the existing
record, validate, build the trade from the event, save, append the CREATE/UPDATE
audit entry, with the source's try/except structure.  Returns the outcome, the
trade store after the call, and the audit log after the call. -/
def create_or_update_trade (env : RepoBehavior) (today : Int) (td : TradeCreate)
    (store : List Trade) (log : List AuditEntry) :
    Except PyExc Trade × List Trade × List AuditEntry :=
  match env.getFails with
  | some msg => handleOther env td (.otherExc msg) store log
  | none =>
    let existing := get_trade store td.trade_id
    match validate_trade env today td existing log with
    | (.error e, log1) => handleExc env td e store log1
    | (.ok _, log1) =>
      let trade := mkTrade td
      match env.saveFails with
      | some msg => handleOther env td (.otherExc msg) store log1
      | none =>
        let store1 := save_trade store trade
        match env.auditFails with
        | some msg => handleOther env td (.otherExc msg) store1 log1
        | none =>
          let action := if existing.isSome then "UPDATE" else "CREATE"
          (.ok trade, store1,
           log1 ++ [⟨td.trade_id, action,
                     .upsertDetails td.version td.counter_party_id td.book_id
                       td.maturity_date (existing.map Trade.version),
                     "success"⟩])

/-- Audit entry appended on the lower-version reject path (source lines 44–53). -/
def lvEntry (td : TradeCreate) (cur : Nat) : AuditEntry :=
  ⟨td.trade_id, "VALIDATION_FAILED", .lowerVersion td.version cur, "failed"⟩

/-- Audit entry appended on the past-maturity reject path (source lines 62–71). -/
def matEntry (td : TradeCreate) (today : Int) : AuditEntry :=
  ⟨td.trade_id, "VALIDATION_FAILED", .maturityPast td.maturity_date today, "failed"⟩

/-- Audit entry appended by the generic exception handler (source lines 124–129). -/
def errEntry (td : TradeCreate) (msg : String) : AuditEntry :=
  ⟨td.trade_id, "ERROR", .errorDetails msg, "failed"⟩

/-- Audit entry appended on an accepted ingest (source lines 101–113). -/
def successEntry (td : TradeCreate) (prev : Option Nat) : AuditEntry :=
  ⟨td.trade_id, if prev.isSome then "UPDATE" else "CREATE",
   .upsertDetails td.version td.counter_party_id td.book_id td.maturity_date prev,
   "success"⟩

/-- `TradeService.mark_expired_trades` (source lines 161–177): bulk-flag matured
rows, and if any were changed append a TRADES_EXPIRED system event with the count
and the evaluation date.  Returns the count, the store after the sweep, and the
event log after the call. -/
def mark_expired_trades (today : Int) (store : List Trade)
    (events : List EventEntry) : Nat × List Trade × List EventEntry :=
  let r := mark_expired_rows today store
  if r.2 > 0 then
    (r.2, r.1, events ++ [⟨"TRADES_EXPIRED", .expiredData r.2 today, "info"⟩])
  else
    (r.2, r.1, events)

section PathLemmas

/-- On a lower-version ingest with a healthy audit store, the service raises
`InvalidVersionException`, appends the VALIDATION_FAILED entry, and leaves the
trade store untouched. -/
theorem ingest_lowerVersion (today : Int) (td : TradeCreate) (store : List Trade)
    (log : List AuditEntry) (ex : Trade)
    (hget : get_trade store td.trade_id = some ex)
    (hlt : td.version < ex.version) :
    create_or_update_trade okEnv today td store log =
      (.error (.invalidVersion td.trade_id td.version ex.version), store,
       log ++ [lvEntry td ex.version]) := by
  simp [create_or_update_trade, okEnv, hget, validate_trade, hlt, handleExc, lvEntry]

/-- On a past-maturity ingest with no lower-version failure and a healthy audit
store, the service raises `InvalidMaturityDateException`, appends the
VALIDATION_FAILED entry, and leaves the trade store untouched. -/
theorem ingest_maturityPast (today : Int) (td : TradeCreate) (store : List Trade)
    (log : List AuditEntry)
    (hv : ∀ ex, get_trade store td.trade_id = some ex → ex.version ≤ td.version)
    (hm : td.maturity_date < today) :
    create_or_update_trade okEnv today td store log =
      (.error (.invalidMaturity td.trade_id td.maturity_date), store,
       log ++ [matEntry td today]) := by
  cases hget : get_trade store td.trade_id with
  | none =>
      simp [create_or_update_trade, okEnv, hget, validate_trade, hm, handleExc, matEntry]
  | some ex =>
      have hnl : ¬ td.version < ex.version := Nat.not_lt.mpr (hv ex hget)
      simp [create_or_update_trade, okEnv, hget, validate_trade, hnl, hm,
            handleExc, matEntry]

/-- On an accepted ingest with all repositories healthy, the service upserts the
record built from the event and appends the CREATE/UPDATE audit entry. -/
theorem ingest_accept (today : Int) (td : TradeCreate) (store : List Trade)
    (log : List AuditEntry)
    (hv : ∀ ex, get_trade store td.trade_id = some ex → ex.version ≤ td.version)
    (hm : today ≤ td.maturity_date) :
    create_or_update_trade okEnv today td store log =
      (.ok (mkTrade td), save_trade store (mkTrade td),
       log ++ [successEntry td ((get_trade store td.trade_id).map Trade.version)]) := by
  have hnm : ¬ td.maturity_date < today := not_lt.mpr hm
  cases hget : get_trade store td.trade_id with
  | none =>
      simp [create_or_update_trade, okEnv, hget, validate_trade, hnm, successEntry]
  | some ex =>
      have hnl : ¬ td.version < ex.version := Nat.not_lt.mpr (hv ex hget)
      simp [create_or_update_trade, okEnv, hget, validate_trade, hnl, hnm, successEntry]

end PathLemmas

section StoreLemmas

/-- After an upsert, lookup by the record's key returns exactly that record. -/
theorem get_trade_save_trade (store : List Trade) (t : Trade) :
    get_trade (save_trade store t) t.trade_id = some t := by
  unfold save_trade
  by_cases h : store.any (fun r => r.trade_id == t.trade_id)
  · simp only [h, if_true]
    induction store with
    | nil => simp at h
    | cons r rs ih =>
        simp only [List.any_cons, Bool.or_eq_true] at h
        by_cases hr : r.trade_id == t.trade_id
        · simp [get_trade, List.find?, hr]
        · have hrs : rs.any (fun r => r.trade_id == t.trade_id) := by
            rcases h with h | h
            · exact absurd h hr
            · exact h
          simpa [get_trade, List.find?, hr] using ih hrs
  · simp only [h, if_false]
    induction store with
    | nil => simp [get_trade, List.find?]
    | cons r rs ih =>
        simp only [List.any_cons, Bool.or_eq_true, not_or] at h
        simp only [Bool.not_eq_true] at h
        simpa [get_trade, List.find?, h.1] using ih (by simp [h.2])

/-- Upserting the same record twice is the same as upserting it once. -/
theorem save_trade_save_trade (store : List Trade) (t : Trade) :
    save_trade (save_trade store t) t = save_trade store t := by
  unfold save_trade
  by_cases h : store.any (fun r => r.trade_id == t.trade_id)
  · simp only [h, if_true]
    have hany : (store.map (fun r => if r.trade_id == t.trade_id then t else r)).any
        (fun r => r.trade_id == t.trade_id) = true := by
      rw [List.any_eq_true] at h ⊢
      obtain ⟨r, hr, hid⟩ := h
      refine ⟨t, ?_, by simp⟩
      rw [List.mem_map]
      exact ⟨r, hr, by simp [hid]⟩
    simp only [hany, if_true, List.map_map]
    apply List.map_congr_left
    intro r _
    by_cases hr : r.trade_id == t.trade_id <;> simp [Function.comp, hr]
  · simp only [h, Bool.false_eq_true, if_false]
    have hany : (store ++ [t]).any (fun r => r.trade_id == t.trade_id) = true := by
      simp [List.any_append]
    rw [if_pos hany]
    have hmap : store.map (fun r => if r.trade_id == t.trade_id then t else r) = store := by
      conv_rhs => rw [show store = store.map id from (List.map_id store).symm]
      apply List.map_congr_left
      intro r hr
      have hne : ¬ (r.trade_id == t.trade_id) = true := by
        intro hc
        exact absurd (List.any_eq_true.mpr ⟨r, hr, hc⟩) h
      simp [hne]
    rw [List.map_append, hmap]
    simp

end StoreLemmas

section SweepLemmas

/-- The sweep never touches an already-expired row. -/
theorem markRow_of_expired (asOf : Int) (t : Trade) (h : t.expired = true) :
    markRow asOf t = t := by
  simp [markRow, shouldExpire, h]

/-- The sweep never touches a row whose maturity date has not passed. -/
theorem markRow_of_not_matured (asOf : Int) (t : Trade) (h : asOf ≤ t.maturity_date) :
    markRow asOf t = t := by
  simp [markRow, shouldExpire, not_lt.mpr h]

/-- A row comes out of the sweep changed exactly when the WHERE clause selects it. -/
theorem markRow_ne_iff (asOf : Int) (t : Trade) :
    markRow asOf t ≠ t ↔ shouldExpire asOf t = true := by
  constructor
  · intro hne
    by_contra hsel
    exact hne (by simp [markRow, hsel])
  · intro hsel heq
    have hexp : t.expired = false := by
      have := hsel
      simp [shouldExpire] at this
      exact this.1
    have : t.expired = true := by
      conv_lhs => rw [← heq]
      simp [markRow, hsel]
    rw [hexp] at this
    exact Bool.false_ne_true this

end SweepLemmas

/-- C1: an ingest whose tradeId already has a stored record with a strictly
greater version fails with the LowerVersion error carrying the trade id, the
received version and the current version; the trade store is returned unchanged
(no write occurs), and only the VALIDATION_FAILED audit entry is appended. -/
theorem C1_lower_version_rejected (today : Int) (td : TradeCreate)
    (store : List Trade) (log : List AuditEntry) (ex : Trade)
    (hget : get_trade store td.trade_id = some ex)
    (hlt : td.version < ex.version) :
    create_or_update_trade okEnv today td store log =
      (.error (.invalidVersion td.trade_id td.version ex.version), store,
       log ++ [lvEntry td ex.version]) :=
  ingest_lowerVersion today td store log ex hget hlt

/-- Witness for C1 at a concrete input: stored version 2, incoming version 1. -/
theorem C1_lower_version_rejected_witness :
    create_or_update_trade okEnv 0 ⟨"T1", 1, "CP-1", "B1", 100, 0, false⟩
        [⟨"T1", 2, "CP-1", "B1", 50, 0, false⟩] [] =
      (.error (.invalidVersion "T1" 1 2), [⟨"T1", 2, "CP-1", "B1", 50, 0, false⟩],
       [lvEntry ⟨"T1", 1, "CP-1", "B1", 100, 0, false⟩ 2]) :=
  C1_lower_version_rejected 0 ⟨"T1", 1, "CP-1", "B1", 100, 0, false⟩
    [⟨"T1", 2, "CP-1", "B1", 50, 0, false⟩] [] ⟨"T1", 2, "CP-1", "B1", 50, 0, false⟩
    (by decide) (by decide)

/-- C2: when an ingest has both a lower version than the stored record and a
past maturity date, the returned failure is the LowerVersion error and never the
MaturityInPast error: the version check is evaluated first. -/
theorem C2_version_check_first (today : Int) (td : TradeCreate)
    (store : List Trade) (log : List AuditEntry) (ex : Trade)
    (hget : get_trade store td.trade_id = some ex)
    (hlt : td.version < ex.version)
    (hmat : td.maturity_date < today) :
    (create_or_update_trade okEnv today td store log).1 =
      .error (.invalidVersion td.trade_id td.version ex.version) ∧
    ∀ id m, (create_or_update_trade okEnv today td store log).1 ≠
      .error (.invalidMaturity id m) := by
  rw [ingest_lowerVersion today td store log ex hget hlt]
  exact ⟨rfl, fun id m h => by cases h⟩

/-- Witness for C2 at a concrete input: lower version and maturity in the past. -/
theorem C2_version_check_first_witness :
    (create_or_update_trade okEnv 10 ⟨"T1", 1, "CP-1", "B1", 3, 0, false⟩
        [⟨"T1", 2, "CP-1", "B1", 50, 0, false⟩] []).1 =
      .error (.invalidVersion "T1" 1 2) ∧
    ∀ id m, (create_or_update_trade okEnv 10 ⟨"T1", 1, "CP-1", "B1", 3, 0, false⟩
        [⟨"T1", 2, "CP-1", "B1", 50, 0, false⟩] []).1 ≠
      .error (.invalidMaturity id m) :=
  C2_version_check_first 10 ⟨"T1", 1, "CP-1", "B1", 3, 0, false⟩
    [⟨"T1", 2, "CP-1", "B1", 50, 0, false⟩] [] ⟨"T1", 2, "CP-1", "B1", 50, 0, false⟩
    (by decide) (by decide) (by decide)

/-- C3: an ingest with a past maturity date and no lower-version failure fails
with the MaturityInPast error, the trade store is returned unchanged, and in
particular a fresh tradeId still has no record afterwards. -/
theorem C3_maturity_past_rejected (today : Int) (td : TradeCreate)
    (store : List Trade) (log : List AuditEntry)
    (hv : ∀ ex, get_trade store td.trade_id = some ex → ex.version ≤ td.version)
    (hm : td.maturity_date < today) :
    create_or_update_trade okEnv today td store log =
      (.error (.invalidMaturity td.trade_id td.maturity_date), store,
       log ++ [matEntry td today]) ∧
    (get_trade store td.trade_id = none →
      get_trade (create_or_update_trade okEnv today td store log).2.1 td.trade_id
        = none) := by
  have h := ingest_maturityPast today td store log hv hm
  refine ⟨h, fun hnone => ?_⟩
  rw [h]
  exact hnone

/-- Witness for C3 at a concrete input: first-time ingest of tradeId T2 with a
maturity date ten days in the past leaves the store without a record for T2. -/
theorem C3_maturity_past_rejected_witness :
    create_or_update_trade okEnv 0 ⟨"T2", 1, "CP-1", "B1", -10, 0, false⟩ [] [] =
      (.error (.invalidMaturity "T2" (-10)), [],
       [matEntry ⟨"T2", 1, "CP-1", "B1", -10, 0, false⟩ 0]) ∧
    (get_trade [] "T2" = none →
      get_trade (create_or_update_trade okEnv 0
        ⟨"T2", 1, "CP-1", "B1", -10, 0, false⟩ [] []).2.1 "T2" = none) :=
  C3_maturity_past_rejected 0 ⟨"T2", 1, "CP-1", "B1", -10, 0, false⟩ [] []
    (by intro ex hex; cases hex) (by decide)

/-- C4: an ingest whose version is not below the stored current version (in
particular an equal-version ingest) succeeds and overwrites all mutable fields
with the event's values; re-ingesting the exact same accepted event immediately
again succeeds as an equal-version replace and yields the same stored record. -/
theorem C4_equal_version_replace_idempotent (today : Int) (td : TradeCreate)
    (store : List Trade) (log log2 : List AuditEntry)
    (hv : ∀ ex, get_trade store td.trade_id = some ex → ex.version ≤ td.version)
    (hm : today ≤ td.maturity_date) :
    (create_or_update_trade okEnv today td store log).1 = .ok (mkTrade td) ∧
    get_trade (create_or_update_trade okEnv today td store log).2.1 td.trade_id
      = some (mkTrade td) ∧
    (create_or_update_trade okEnv today td
        (create_or_update_trade okEnv today td store log).2.1 log2).1
      = .ok (mkTrade td) ∧
    (create_or_update_trade okEnv today td
        (create_or_update_trade okEnv today td store log).2.1 log2).2.1
      = (create_or_update_trade okEnv today td store log).2.1 := by
  have h1 := ingest_accept today td store log hv hm
  have hstore1 : (create_or_update_trade okEnv today td store log).2.1
      = save_trade store (mkTrade td) := by rw [h1]
  have hget1 : get_trade (save_trade store (mkTrade td)) td.trade_id
      = some (mkTrade td) := get_trade_save_trade store (mkTrade td)
  have hv2 : ∀ ex, get_trade (save_trade store (mkTrade td)) td.trade_id = some ex
      → ex.version ≤ td.version := by
    intro ex hex
    rw [hget1] at hex
    cases hex
    exact le_refl _
  have h2 := ingest_accept today td (save_trade store (mkTrade td)) log2 hv2 hm
  refine ⟨by rw [h1], ?_, ?_, ?_⟩
  · rw [hstore1]; exact hget1
  · rw [hstore1, h2]
  · rw [hstore1, h2]
    exact save_trade_save_trade store (mkTrade td)

/-- Witness for C4 at a concrete input: re-ingesting the same version-1 event
over its own stored record succeeds twice and leaves the store unchanged. -/
theorem C4_equal_version_replace_idempotent_witness :
    (create_or_update_trade okEnv 0 ⟨"T1", 1, "CP-2", "B2", 100, 0, false⟩
        [⟨"T1", 1, "CP-1", "B1", 50, 0, false⟩] []).1
      = .ok (mkTrade ⟨"T1", 1, "CP-2", "B2", 100, 0, false⟩) ∧
    get_trade (create_or_update_trade okEnv 0 ⟨"T1", 1, "CP-2", "B2", 100, 0, false⟩
        [⟨"T1", 1, "CP-1", "B1", 50, 0, false⟩] []).2.1 "T1"
      = some (mkTrade ⟨"T1", 1, "CP-2", "B2", 100, 0, false⟩) ∧
    (create_or_update_trade okEnv 0 ⟨"T1", 1, "CP-2", "B2", 100, 0, false⟩
        (create_or_update_trade okEnv 0 ⟨"T1", 1, "CP-2", "B2", 100, 0, false⟩
          [⟨"T1", 1, "CP-1", "B1", 50, 0, false⟩] []).2.1 []).1
      = .ok (mkTrade ⟨"T1", 1, "CP-2", "B2", 100, 0, false⟩) ∧
    (create_or_update_trade okEnv 0 ⟨"T1", 1, "CP-2", "B2", 100, 0, false⟩
        (create_or_update_trade okEnv 0 ⟨"T1", 1, "CP-2", "B2", 100, 0, false⟩
          [⟨"T1", 1, "CP-1", "B1", 50, 0, false⟩] []).2.1 []).2.1
      = (create_or_update_trade okEnv 0 ⟨"T1", 1, "CP-2", "B2", 100, 0, false⟩
          [⟨"T1", 1, "CP-1", "B1", 50, 0, false⟩] []).2.1 :=
  C4_equal_version_replace_idempotent 0 ⟨"T1", 1, "CP-2", "B2", 100, 0, false⟩
    [⟨"T1", 1, "CP-1", "B1", 50, 0, false⟩] [] []
    (by decide) (by decide)

/-- C5 counterexample: a stored record for T1 has `expired = true`; a user-driven
ingest of the same version with a future maturity date and `expired = false` is
accepted and the stored flag is reset to false — so `expired` is written by
ingest, not only by the sweep, and it is not monotone. -/
theorem C5_counterexample :
    (create_or_update_trade okEnv 0 ⟨"T1", 1, "CP-1", "B1", 100, 0, false⟩
        [⟨"T1", 1, "CP-1", "B1", 100, 0, true⟩] []).1
      = .ok (mkTrade ⟨"T1", 1, "CP-1", "B1", 100, 0, false⟩) ∧
    get_trade [⟨"T1", 1, "CP-1", "B1", 100, 0, true⟩] "T1"
      = some ⟨"T1", 1, "CP-1", "B1", 100, 0, true⟩ ∧
    get_trade (create_or_update_trade okEnv 0 ⟨"T1", 1, "CP-1", "B1", 100, 0, false⟩
        [⟨"T1", 1, "CP-1", "B1", 100, 0, true⟩] []).2.1 "T1"
      = some ⟨"T1", 1, "CP-1", "B1", 100, 0, false⟩ := by
  exact ⟨rfl, rfl, rfl⟩

/-- C5 as amended: the expiry sweep itself is monotone — it never touches an
already-expired row, so it never resets `expired` to false — but the flag is not
sweep-only: an accepted ingest overwrites the stored `expired` flag verbatim with
the incoming event's `expired` field, so a user-driven ingest can set it true or
reset a true flag back to false. -/
theorem C5_sweep_monotone_ingest_overwrites (asOf : Int) (t : Trade)
    (sweepStore : List Trade) (today : Int) (td : TradeCreate)
    (store : List Trade) (log : List AuditEntry)
    (hexp : t.expired = true)
    (hv : ∀ ex, get_trade store td.trade_id = some ex → ex.version ≤ td.version)
    (hm : today ≤ td.maturity_date) :
    markRow asOf t = t ∧
    (∀ i s, sweepStore.get? i = some s → s.expired = true →
      (mark_expired_rows asOf sweepStore).1.get? i = some s) ∧
    get_trade (create_or_update_trade okEnv today td store log).2.1 td.trade_id
      = some (mkTrade td) ∧
    (mkTrade td).expired = td.expired := by
  refine ⟨markRow_of_expired asOf t hexp, ?_, ?_, rfl⟩
  · intro i s hs hsexp
    unfold mark_expired_rows
    simp only [List.get?_map, hs]
    simp [markRow_of_expired asOf s hsexp]
  · rw [ingest_accept today td store log hv hm]
    exact get_trade_save_trade store (mkTrade td)

/-- Witness for the amended C5 at a concrete input. -/
theorem C5_sweep_monotone_ingest_overwrites_witness :
    markRow 0 ⟨"T1", 1, "CP-1", "B1", -5, 0, true⟩ = ⟨"T1", 1, "CP-1", "B1", -5, 0, true⟩ ∧
    (∀ i s, [⟨"T1", 1, "CP-1", "B1", -5, 0, true⟩].get? i = some s → s.expired = true →
      (mark_expired_rows 0 [⟨"T1", 1, "CP-1", "B1", -5, 0, true⟩]).1.get? i = some s) ∧
    get_trade (create_or_update_trade okEnv 0 ⟨"T2", 1, "CP-1", "B1", 7, 0, true⟩
        [] []).2.1 "T2" = some (mkTrade ⟨"T2", 1, "CP-1", "B1", 7, 0, true⟩) ∧
    (mkTrade ⟨"T2", 1, "CP-1", "B1", 7, 0, true⟩).expired = true :=
  C5_sweep_monotone_ingest_overwrites 0 ⟨"T1", 1, "CP-1", "B1", -5, 0, true⟩
    [⟨"T1", 1, "CP-1", "B1", -5, 0, true⟩] 0 ⟨"T2", 1, "CP-1", "B1", 7, 0, true⟩ [] []
    (by decide) (by decide) (by decide)

/-- C6: an accepted ingest appends exactly one success audit entry, whose action
is CREATE when no record existed for the tradeId and UPDATE otherwise, and whose
details carry the new field values together with the previous version (none when
no record existed). -/
theorem C6_accept_audit_entry (today : Int) (td : TradeCreate)
    (store : List Trade) (log : List AuditEntry)
    (hv : ∀ ex, get_trade store td.trade_id = some ex → ex.version ≤ td.version)
    (hm : today ≤ td.maturity_date) :
    (create_or_update_trade okEnv today td store log).2.2 =
      log ++ [⟨td.trade_id,
               if (get_trade store td.trade_id).isSome then "UPDATE" else "CREATE",
               .upsertDetails td.version td.counter_party_id td.book_id
                 td.maturity_date ((get_trade store td.trade_id).map Trade.version),
               "success"⟩] := by
  rw [ingest_accept today td store log hv hm]
  simp [successEntry, Option.isSome_map]

/-- Witness for C6 at a concrete input: a first-time ingest appends one CREATE
entry with previous version none. -/
theorem C6_accept_audit_entry_witness :
    (create_or_update_trade okEnv 0 ⟨"T1", 1, "CP-1", "B1", 30, 0, false⟩ [] []).2.2 =
      [⟨"T1",
        if (get_trade [] "T1").isSome then "UPDATE" else "CREATE",
        .upsertDetails 1 "CP-1" "B1" 30 ((get_trade [] "T1").map Trade.version),
        "success"⟩] :=
  C6_accept_audit_entry 0 ⟨"T1", 1, "CP-1", "B1", 30, 0, false⟩ [] []
    (by decide) (by decide)

/-- On a reject path with the audit store down, the `log_audit` call raised in
`validate_trade` raises before the validation exception is constructed; the
generic handler then fails to append its ERROR entry as well, so the caller
receives the audit-store error and no entry is appended. -/
theorem ingest_reject_auditDown (today : Int) (td : TradeCreate)
    (store : List Trade) (log : List AuditEntry) (msg : String)
    (hrej : (∃ ex, get_trade store td.trade_id = some ex ∧ td.version < ex.version)
            ∨ td.maturity_date < today) :
    create_or_update_trade ⟨none, none, some msg⟩ today td store log =
      (.error (.otherExc msg), store, log) := by
  rcases hrej with ⟨ex, hget, hlt⟩ | hm
  · simp [create_or_update_trade, hget, validate_trade, hlt, handleExc, handleOther]
  · cases hget : get_trade store td.trade_id with
    | none =>
        simp [create_or_update_trade, hget, validate_trade, hm, handleExc, handleOther]
    | some ex =>
        by_cases hlt : td.version < ex.version
        · simp [create_or_update_trade, hget, validate_trade, hlt, handleExc, handleOther]
        · simp [create_or_update_trade, hget, validate_trade, hlt, hm,
                handleExc, handleOther]

/-- C7 counterexample: with the audit store down, an ingest carrying a lower
version than the stored record does not return the LowerVersion validation
error; the caller receives the audit-store failure instead, so the audit-append
failure replaces the validation error. -/
theorem C7_counterexample :
    create_or_update_trade ⟨none, none, some "audit store down"⟩ 0
        ⟨"T1", 1, "CP-1", "B1", 100, 0, false⟩
        [⟨"T1", 2, "CP-1", "B1", 100, 0, false⟩] [] =
      (.error (.otherExc "audit store down"),
       [⟨"T1", 2, "CP-1", "B1", 100, 0, false⟩], []) ∧
    (create_or_update_trade ⟨none, none, some "audit store down"⟩ 0
        ⟨"T1", 1, "CP-1", "B1", 100, 0, false⟩
        [⟨"T1", 2, "CP-1", "B1", 100, 0, false⟩] []).1 ≠
      .error (.invalidVersion "T1" 1 2) := by
  refine ⟨rfl, fun h => ?_⟩
  cases h

/-- C7 as amended: when the VALIDATION_FAILED audit append succeeds, the
validation error is returned to the caller; but when the audit store is down the
`log_audit` call raises first, and the audit failure — not the validation
error — is what the caller receives, on both reject paths. -/
theorem C7_validation_error_vs_audit_failure (today : Int) (td : TradeCreate)
    (store : List Trade) (log : List AuditEntry) (msg : String) :
    (∀ ex, get_trade store td.trade_id = some ex → td.version < ex.version →
      (create_or_update_trade okEnv today td store log).1 =
        .error (.invalidVersion td.trade_id td.version ex.version) ∧
      (create_or_update_trade ⟨none, none, some msg⟩ today td store log).1 =
        .error (.otherExc msg)) ∧
    ((∀ ex, get_trade store td.trade_id = some ex → ex.version ≤ td.version) →
     td.maturity_date < today →
      (create_or_update_trade okEnv today td store log).1 =
        .error (.invalidMaturity td.trade_id td.maturity_date) ∧
      (create_or_update_trade ⟨none, none, some msg⟩ today td store log).1 =
        .error (.otherExc msg)) := by
  constructor
  · intro ex hget hlt
    constructor
    · rw [ingest_lowerVersion today td store log ex hget hlt]
    · rw [ingest_reject_auditDown today td store log msg (Or.inl ⟨ex, hget, hlt⟩)]
  · intro hv hm
    constructor
    · rw [ingest_maturityPast today td store log hv hm]
    · rw [ingest_reject_auditDown today td store log msg (Or.inr hm)]

/-- Witness for the amended C7 at a concrete input: stored version 2, incoming
version 1, healthy audit store yields the LowerVersion error; a down audit store
yields the audit failure. -/
theorem C7_validation_error_vs_audit_failure_witness :
    (create_or_update_trade okEnv 0 ⟨"T1", 1, "CP-1", "B1", 100, 0, false⟩
        [⟨"T1", 2, "CP-1", "B1", 100, 0, false⟩] []).1 =
      .error (.invalidVersion "T1" 1 2) ∧
    (create_or_update_trade ⟨none, none, some "mongo down"⟩ 0
        ⟨"T1", 1, "CP-1", "B1", 100, 0, false⟩
        [⟨"T1", 2, "CP-1", "B1", 100, 0, false⟩] []).1 =
      .error (.otherExc "mongo down") :=
  (C7_validation_error_vs_audit_failure 0 ⟨"T1", 1, "CP-1", "B1", 100, 0, false⟩
      [⟨"T1", 2, "CP-1", "B1", 100, 0, false⟩] [] "mongo down").1
    ⟨"T1", 2, "CP-1", "B1", 100, 0, false⟩ (by decide) (by decide)


/-- Closed form of `mark_expired_trades`: the count is the number of selected
rows, the store is mapped row-wise, and the event is appended iff the count is
positive. -/
theorem mark_expired_trades_eq (today : Int) (store : List Trade)
    (events : List EventEntry) :
    mark_expired_trades today store events =
      ((store.filter (shouldExpire today)).length, store.map (markRow today),
       if (store.filter (shouldExpire today)).length > 0 then
         events ++ [⟨"TRADES_EXPIRED",
           .expiredData (store.filter (shouldExpire today)).length today, "info"⟩]
       else events) := by
  unfold mark_expired_trades mark_expired_rows
  by_cases h : (store.filter (shouldExpire today)).length > 0 <;> simp [h]

/-- C8: after the expiry sweep evaluated at a date, every stored record whose
maturity date is strictly before that date is expired, every record whose
maturity date has not passed is returned unchanged in place, and the returned
count is the number of records the sweep changed. -/
theorem C8_sweep_complete (today : Int) (store : List Trade)
    (events : List EventEntry) :
    (∀ t, t ∈ (mark_expired_trades today store events).2.1 →
       t.maturity_date < today → t.expired = true) ∧
    (∀ i t, store.get? i = some t → today ≤ t.maturity_date →
       (mark_expired_trades today store events).2.1.get? i = some t) ∧
    (mark_expired_trades today store events).1 =
       (store.filter (fun t => decide (markRow today t ≠ t))).length := by
  have hstore : (mark_expired_trades today store events).2.1
      = store.map (markRow today) := by rw [mark_expired_trades_eq]
  have hcount : (mark_expired_trades today store events).1
      = (store.filter (shouldExpire today)).length := by rw [mark_expired_trades_eq]
  refine ⟨?_, ?_, ?_⟩
  · intro t ht hm
    rw [hstore] at ht
    obtain ⟨s, hs, rfl⟩ := List.mem_map.mp ht
    by_cases hse : shouldExpire today s = true
    · simp [markRow, hse]
    · have heq : markRow today s = s := by simp [markRow, hse]
      rw [heq] at hm ⊢
      by_contra hexp
      have hexp' : s.expired = false := by
        cases hb : s.expired
        · rfl
        · exact absurd hb hexp
      exact hse (by simp [shouldExpire, hexp', hm])
  · intro i t ht hm
    rw [hstore]
    simp only [List.get?_map, ht]
    simp [markRow_of_not_matured today t hm]
  · rw [hcount]
    congr 1
    apply List.filter_congr
    intro a _
    by_cases hse : shouldExpire today a = true
    · simp [hse, (markRow_ne_iff today a).mpr hse]
    · have heq : markRow today a = a := by
        by_contra hne
        exact hse ((markRow_ne_iff today a).mp hne)
      simp [hse, heq]

/-- Witness for C8 at a concrete input: a matured non-expired row is flagged, a
future-dated row is untouched, and the count is one. -/
theorem C8_sweep_complete_witness :
    (∀ t, t ∈ (mark_expired_trades 0 [⟨"T1", 1, "CP-1", "B1", -1, 0, false⟩,
         ⟨"T2", 1, "CP-2", "B1", 9, 0, false⟩] []).2.1 →
       t.maturity_date < 0 → t.expired = true) ∧
    (mark_expired_trades 0 [⟨"T1", 1, "CP-1", "B1", -1, 0, false⟩,
        ⟨"T2", 1, "CP-2", "B1", 9, 0, false⟩] []).2.1.get? 1
      = some ⟨"T2", 1, "CP-2", "B1", 9, 0, false⟩ :=
  ⟨(C8_sweep_complete 0 [⟨"T1", 1, "CP-1", "B1", -1, 0, false⟩,
      ⟨"T2", 1, "CP-2", "B1", 9, 0, false⟩] []).1,
   (C8_sweep_complete 0 [⟨"T1", 1, "CP-1", "B1", -1, 0, false⟩,
      ⟨"T2", 1, "CP-2", "B1", 9, 0, false⟩] []).2.1 1
      ⟨"T2", 1, "CP-2", "B1", 9, 0, false⟩ (by decide) (by decide)⟩

/-- C9: the sweep appends a TRADES_EXPIRED system event carrying the count and
the evaluation date exactly when it changed at least one record; when the count
is zero no event is appended. -/
theorem C9_expired_event_iff_count_pos (today : Int) (store : List Trade)
    (events : List EventEntry) :
    ((mark_expired_trades today store events).1 > 0 →
      (mark_expired_trades today store events).2.2 =
        events ++ [⟨"TRADES_EXPIRED",
          .expiredData (mark_expired_trades today store events).1 today, "info"⟩]) ∧
    ((mark_expired_trades today store events).1 = 0 →
      (mark_expired_trades today store events).2.2 = events) := by
  rw [mark_expired_trades_eq]
  by_cases h : (store.filter (shouldExpire today)).length > 0
  · rw [if_pos h]
    exact ⟨fun _ => rfl, fun h0 => absurd h0 (by omega)⟩
  · rw [if_neg h]
    exact ⟨fun hp => absurd hp h, fun _ => rfl⟩

/-- Witness for C9 at a concrete input: one matured row, count one, one
TRADES_EXPIRED event carrying count and date. -/
theorem C9_expired_event_iff_count_pos_witness :
    (mark_expired_trades 0 [⟨"T1", 1, "CP-1", "B1", -1, 0, false⟩] []).2.2 =
      [] ++ [⟨"TRADES_EXPIRED",
        .expiredData (mark_expired_trades 0
          [⟨"T1", 1, "CP-1", "B1", -1, 0, false⟩] []).1 0, "info"⟩] :=
  (C9_expired_event_iff_count_pos 0 [⟨"T1", 1, "CP-1", "B1", -1, 0, false⟩] []).1
    (by decide)
/-- C10 counterexample: an otherwise-valid first-time ingest whose success-path
audit append fails is an ingest failing with a non-validation exception, yet no
ERROR audit entry is appended (the generic handler's own append fails too) and
the audit-append failure is what the caller receives — the record, however, was
already saved. -/
theorem C10_counterexample :
    create_or_update_trade ⟨none, none, some "audit down"⟩ 0
        ⟨"T1", 1, "CP-1", "B1", 30, 0, false⟩ [] [] =
      (.error (.otherExc "audit down"),
       save_trade [] (mkTrade ⟨"T1", 1, "CP-1", "B1", 30, 0, false⟩), []) := by
  exact rfl

/-- C10 as amended: when the audit store is healthy, a non-validation exception
(the get or the save raising a storage error) appends exactly one ERROR audit
entry carrying the error message and re-raises the original exception unchanged,
and the validation-rejection paths append only the VALIDATION_FAILED entry,
never an ERROR entry; but when the audit append itself fails, the generic
handler appends no ERROR entry and the audit-append failure propagates to the
caller in place of the original exception. -/
theorem C10_error_audit_amended (today : Int) (td : TradeCreate)
    (store : List Trade) (log : List AuditEntry) (msg : String) :
    (create_or_update_trade ⟨some msg, none, none⟩ today td store log =
       (.error (.otherExc msg), store, log ++ [errEntry td msg])) ∧
    ((∀ ex, get_trade store td.trade_id = some ex → ex.version ≤ td.version) →
     today ≤ td.maturity_date →
     create_or_update_trade ⟨none, some msg, none⟩ today td store log =
       (.error (.otherExc msg), store, log ++ [errEntry td msg])) ∧
    (∀ ex, get_trade store td.trade_id = some ex → td.version < ex.version →
       (create_or_update_trade okEnv today td store log).2.2 =
         log ++ [lvEntry td ex.version]) ∧
    ((∀ ex, get_trade store td.trade_id = some ex → ex.version ≤ td.version) →
     td.maturity_date < today →
       (create_or_update_trade okEnv today td store log).2.2 =
         log ++ [matEntry td today]) ∧
    ((∀ ex, get_trade store td.trade_id = some ex → ex.version ≤ td.version) →
     today ≤ td.maturity_date →
     create_or_update_trade ⟨none, none, some msg⟩ today td store log =
       (.error (.otherExc msg), save_trade store (mkTrade td), log)) := by
  refine ⟨?_, ?_, ?_, ?_, ?_⟩
  · simp [create_or_update_trade, handleOther, errEntry, excMessage]
  · intro hv hm
    have hnm : ¬ td.maturity_date < today := not_lt.mpr hm
    cases hget : get_trade store td.trade_id with
    | none =>
        simp [create_or_update_trade, hget, validate_trade, hnm,
              handleOther, errEntry, excMessage]
    | some ex =>
        have hnl : ¬ td.version < ex.version := Nat.not_lt.mpr (hv ex hget)
        simp [create_or_update_trade, hget, validate_trade, hnl, hnm,
              handleOther, errEntry, excMessage]
  · intro ex hget hlt
    rw [ingest_lowerVersion today td store log ex hget hlt]
  · intro hv hm
    rw [ingest_maturityPast today td store log hv hm]
  · intro hv hm
    have hnm : ¬ td.maturity_date < today := not_lt.mpr hm
    cases hget : get_trade store td.trade_id with
    | none =>
        simp [create_or_update_trade, hget, validate_trade, hnm, handleOther]
    | some ex =>
        have hnl : ¬ td.version < ex.version := Nat.not_lt.mpr (hv ex hget)
        simp [create_or_update_trade, hget, validate_trade, hnl, hnm, handleOther]

/-- Witness for the amended C10 at concrete inputs: a save failure with a
healthy audit store appends one ERROR entry and re-raises; an audit-store
failure on the success path appends nothing and propagates instead. -/
theorem C10_error_audit_amended_witness :
    create_or_update_trade ⟨none, some "db down", none⟩ 0
        ⟨"T1", 1, "CP-1", "B1", 30, 0, false⟩ [] [] =
      (.error (.otherExc "db down"), [],
       [] ++ [errEntry ⟨"T1", 1, "CP-1", "B1", 30, 0, false⟩ "db down"]) ∧
    create_or_update_trade ⟨none, none, some "mongo down"⟩ 0
        ⟨"T1", 1, "CP-1", "B1", 30, 0, false⟩ [] [] =
      (.error (.otherExc "mongo down"),
       save_trade [] (mkTrade ⟨"T1", 1, "CP-1", "B1", 30, 0, false⟩), []) :=
  ⟨(C10_error_audit_amended 0 ⟨"T1", 1, "CP-1", "B1", 30, 0, false⟩ [] []
      "db down").2.1 (by decide) (by decide),
   (C10_error_audit_amended 0 ⟨"T1", 1, "CP-1", "B1", 30, 0, false⟩ [] []
      "mongo down").2.2.2.2 (by decide) (by decide)⟩
